import Mathlib

/-!
# Verification of the AGMI creative-engine core

Shallow embedding of the creative-engine core of the `agmi-video-generator`
repository, together with proofs of the behavioural claims about it.

Python `float` values are modelled as exact rationals (`ℚ`); the only
irrational-valued operation in the core, `statistics.stdev`, is modelled in
`ℝ` as the square root of the (rational) sample variance.  Fallible Python
code (code that can `raise`) is modelled with `Except String`.
-/

namespace AGMI

/-! ## core/config.py -/

/-- `CreativityConfig`: user-facing configuration (config.py, lines 8-20). -/
structure CreativityConfig where
  creativity_level : ℚ
  quality_threshold : ℚ
deriving DecidableEq, Repr

/-- `CreativityConfig.__post_init__`: constructing the dataclass runs the
validation; modelled as a fallible constructor (config.py, lines 15-20). -/
def mkCreativityConfig (creativity_level quality_threshold : ℚ) :
    Except String CreativityConfig :=
  if ¬ (0 ≤ creativity_level ∧ creativity_level ≤ 1) then
    .error "creativity_level must be between 0.0 and 1.0"
  else if ¬ (0 ≤ quality_threshold ∧ quality_threshold ≤ 1) then
    .error "quality_threshold must be between 0.0 and 1.0"
  else
    .ok ⟨creativity_level, quality_threshold⟩

/-- `EngineParameters` (config.py, lines 23-30). -/
structure EngineParameters where
  temperature : ℚ
  top_p : ℚ
  num_branches : ℤ
  quality_threshold : ℚ
deriving DecidableEq, Repr

/-- The checks of `EngineParameters.__post_init__` (config.py, lines 32-39):
construction raises `ValueError` exactly when this predicate fails. -/
def validEngineParameters (p : EngineParameters) : Prop :=
  (0 ≤ p.temperature ∧ p.temperature ≤ 2) ∧
  (0 ≤ p.top_p ∧ p.top_p ≤ 1) ∧
  1 ≤ p.num_branches

instance (p : EngineParameters) : Decidable (validEngineParameters p) := by
  unfold validEngineParameters; infer_instance

/-- Python `round(x, 2)`: round to 2 decimal places.  Modelled as round half
up; CPython rounds exact half-cent ties to even, which agrees with this model
everywhere except at such ties (none of the proved properties depend on the
tie direction). -/
def round2 (q : ℚ) : ℚ := (⌊q * 100 + 1 / 2⌋ : ℚ) / 100

/-- Python `int(q)`: truncation toward zero. -/
def pyInt (q : ℚ) : ℤ := if 0 ≤ q then ⌊q⌋ else ⌈q⌉

/-- `map_creativity` (config.py, lines 42-73). -/
def map_creativity (creativity_level : ℚ) (quality_threshold : ℚ := 7/10) :
    EngineParameters :=
  -- Clamp level between 0 and 1
  let level : ℚ := max 0 (min 1 creativity_level)
  { temperature := round2 (4/10 + 8/10 * level)
    top_p := round2 (6/10 + 4/10 * level)
    num_branches := max 2 (pyInt (2 + 6 * level))
    quality_threshold := quality_threshold }

/-! ### Helper lemmas about the mapper -/

lemma clamp_nonneg (x : ℚ) : 0 ≤ max 0 (min 1 x) := le_max_left 0 _

lemma clamp_le_one (x : ℚ) : max 0 (min 1 x) ≤ 1 := by
  apply max_le (by norm_num) (min_le_left 1 x)

lemma clamp_mono : Monotone (fun x : ℚ => max 0 (min 1 x)) := by
  intro a b hab
  exact max_le_max le_rfl (min_le_min le_rfl hab)

lemma pyInt_of_nonneg {q : ℚ} (h : 0 ≤ q) : pyInt q = ⌊q⌋ := by
  simp [pyInt, h]

lemma round2_bounds {q lo hi : ℚ} (hlo : lo ≤ q) (hhi : q ≤ hi)
    (hl : ⌊lo * 100 + 1 / 2⌋ = lo * 100) (hh : ⌊hi * 100 + 1 / 2⌋ = hi * 100) :
    lo ≤ round2 q ∧ round2 q ≤ hi := by
  unfold round2
  constructor
  · have h1 : (⌊lo * 100 + 1 / 2⌋ : ℚ) ≤ (⌊q * 100 + 1 / 2⌋ : ℚ) := by
      exact_mod_cast Int.floor_mono (by linarith : lo * 100 + 1 / 2 ≤ q * 100 + 1 / 2)
    rw [hl] at h1
    rw [le_div_iff₀ (by norm_num : (0:ℚ) < 100)]
    linarith
  · have h1 : (⌊q * 100 + 1 / 2⌋ : ℚ) ≤ (⌊hi * 100 + 1 / 2⌋ : ℚ) := by
      exact_mod_cast Int.floor_mono (by linarith : q * 100 + 1 / 2 ≤ hi * 100 + 1 / 2)
    rw [hh] at h1
    rw [div_le_iff₀ (by norm_num : (0:ℚ) < 100)]
    linarith

lemma map_creativity_branches (cl qt : ℚ) :
    (map_creativity cl qt).num_branches = max 2 ⌊(2 : ℚ) + 6 * max 0 (min 1 cl)⌋ := by
  have h0 : (0 : ℚ) ≤ 2 + 6 * max 0 (min 1 cl) := by
    have := clamp_nonneg cl; linarith
  simp [map_creativity, pyInt_of_nonneg h0]

/-- C4: `map_creativity` clamps the creativity level to `[0,1]` (no error for
out-of-range input), returns `temperature = round(0.4 + 0.8·level, 2) ∈
[0.4, 1.2]`, `top_p = round(0.6 + 0.4·level, 2) ∈ [0.6, 1.0]`,
`num_branches = max 2 ⌊2 + 6·level⌋ ∈ [2, 8]` monotonically non-decreasing in
the creativity level, and passes `quality_threshold` through unchanged. -/
theorem map_creativity_spec (cl qt : ℚ) :
    (map_creativity cl qt).temperature = round2 (4/10 + 8/10 * max 0 (min 1 cl)) ∧
    (4/10 ≤ (map_creativity cl qt).temperature ∧ (map_creativity cl qt).temperature ≤ 12/10) ∧
    (map_creativity cl qt).top_p = round2 (6/10 + 4/10 * max 0 (min 1 cl)) ∧
    (6/10 ≤ (map_creativity cl qt).top_p ∧ (map_creativity cl qt).top_p ≤ 1) ∧
    (map_creativity cl qt).num_branches = max 2 ⌊(2 : ℚ) + 6 * max 0 (min 1 cl)⌋ ∧
    (2 ≤ (map_creativity cl qt).num_branches ∧ (map_creativity cl qt).num_branches ≤ 8) ∧
    (map_creativity cl qt).quality_threshold = qt ∧
    (∀ cl', cl ≤ cl' →
      (map_creativity cl qt).num_branches ≤ (map_creativity cl' qt).num_branches) := by
  have h0 := clamp_nonneg cl
  have h1 := clamp_le_one cl
  refine ⟨rfl, ?_, rfl, ?_, map_creativity_branches cl qt, ?_, rfl, ?_⟩
  · exact round2_bounds (by linarith) (by linarith) (by norm_num) (by norm_num)
  · exact round2_bounds (by linarith) (by linarith) (by norm_num) (by norm_num)
  · rw [map_creativity_branches cl qt]
    constructor
    · exact le_max_left 2 _
    · apply max_le
      · norm_num
      · have h : ((2 : ℚ) + 6 * max 0 (min 1 cl)) ≤ 8 := by linarith
        calc ⌊(2 : ℚ) + 6 * max 0 (min 1 cl)⌋ ≤ ⌊(8 : ℚ)⌋ := Int.floor_mono h
          _ = 8 := by norm_num
  · intro cl' h
    rw [map_creativity_branches cl qt, map_creativity_branches cl' qt]
    apply max_le_max le_rfl
    apply Int.floor_mono
    have := clamp_mono h
    simp only at this
    linarith

/-- Witness for `map_creativity_spec`: instantiated at creativity level 0.7,
threshold 0.75, discharging the monotonicity hypothesis at 0.7 ≤ 1. -/
theorem map_creativity_spec_witness :
    (map_creativity (7/10) (3/4)).temperature = 96/100 ∧
    (map_creativity (7/10) (3/4)).top_p = 88/100 ∧
    (map_creativity (7/10) (3/4)).num_branches = 6 ∧
    (map_creativity (7/10) (3/4)).quality_threshold = 3/4 ∧
    (map_creativity (7/10) (3/4)).num_branches ≤ (map_creativity 1 (3/4)).num_branches := by
  have h := (map_creativity_spec (7/10) (3/4)).2.2.2.2.2.2.2 1 (by norm_num)
  refine ⟨?_, ?_, ?_, ?_, h⟩ <;> norm_num [map_creativity, round2, pyInt]

/-- C9: `map_creativity` is total and its output always satisfies the
`EngineParameters.__post_init__` validation (temperature ∈ [0, 2],
top_p ∈ [0, 1], num_branches ≥ 1), so the `ValueError` branches are
unreachable from `map_creativity`. -/
theorem map_creativity_always_valid (cl qt : ℚ) :
    validEngineParameters (map_creativity cl qt) := by
  obtain ⟨-, ⟨ht1, ht2⟩, -, ⟨hp1, hp2⟩, -, ⟨hb1, -⟩, -, -⟩ := map_creativity_spec cl qt
  exact ⟨⟨by linarith, by linarith⟩, ⟨by linarith, hp2⟩, by linarith⟩

/-- C6: constructing a `CreativityConfig` succeeds exactly when both
`creativity_level` and `quality_threshold` lie in `[0, 1]` (boundaries
included); in particular `creativity_level = 1.5` and
`quality_threshold = -0.1` are rejected with a validation error. -/
theorem creativity_config_validation (cl qt : ℚ) :
    ((∃ c, mkCreativityConfig cl qt = .ok c ∧
        c.creativity_level = cl ∧ c.quality_threshold = qt) ↔
      (0 ≤ cl ∧ cl ≤ 1) ∧ (0 ≤ qt ∧ qt ≤ 1)) ∧
    mkCreativityConfig 0 0 = .ok ⟨0, 0⟩ ∧
    mkCreativityConfig 1 1 = .ok ⟨1, 1⟩ ∧
    mkCreativityConfig (15/10) (1/2) =
      .error "creativity_level must be between 0.0 and 1.0" ∧
    mkCreativityConfig (1/2) (-1/10) =
      .error "quality_threshold must be between 0.0 and 1.0" := by
  refine ⟨⟨?_, ?_⟩, ?_, ?_, ?_, ?_⟩
  · rintro ⟨c, hc, -, -⟩
    unfold mkCreativityConfig at hc
    split_ifs at hc with h1 h2
    all_goals first
      | exact Except.noConfusion hc
      | exact ⟨h1, h2⟩
  · rintro ⟨h1, h2⟩
    refine ⟨⟨cl, qt⟩, ?_, rfl, rfl⟩
    unfold mkCreativityConfig
    simp [h1.1, h1.2, h2.1, h2.2]
  all_goals norm_num [mkCreativityConfig]

/-! ## core/enums.py -/

/-- `ContentType` (enums.py, lines 8-16). -/
inductive ContentType where
  | video_script
  | linkedin_post
  | twitter_thread
  | email_copy
  | reddit_post
  | ad_copy
deriving DecidableEq, Repr

/-- `ContentType.value`: the string payload of each enum member. -/
def ContentType.value : ContentType → String
  | .video_script => "video_script"
  | .linkedin_post => "linkedin_post"
  | .twitter_thread => "twitter_thread"
  | .email_copy => "email_copy"
  | .reddit_post => "reddit_post"
  | .ad_copy => "ad_copy"

/-- Nested-mapping values (the shape returned by `model_dump()` / `to_dict()`):
Python dicts, lists, strings, ints, floats and `None`.  Dicts are ordered
association lists, matching Python's insertion-ordered dicts. -/
inductive Json where
  | null
  | str (s : String)
  | int (n : ℤ)
  | rat (q : ℚ)
  | arr (elems : List Json)
  | obj (fields : List (String × Json))

/-- Dict lookup on the nested-mapping form (`d[k]` without the KeyError). -/
def Json.get (j : Json) (key : String) : Option Json :=
  match j with
  | .obj fields => (fields.find? (fun kv => kv.1 = key)).map Prod.snd
  | _ => none

/-! ## generation/models.py -/

/-- `Concept` (generation/models.py, lines 12-17). -/
structure Concept where
  title : String
  description : String
  hook_idea : String
deriving DecidableEq, Repr

/-- `ConceptScore` (generation/models.py, lines 26-30); pydantic restricts
`quality_score` to `[0, 1]` at validation time, which no claim depends on. -/
structure ConceptScore where
  quality_score : ℚ
  reason : String
deriving DecidableEq, Repr

/-- `ScoredConcept` (generation/models.py, lines 33-42). -/
structure ScoredConcept where
  concept : Concept
  score : ConceptScore
deriving DecidableEq, Repr

/-- The `quality_score` convenience property of `ScoredConcept`. -/
def ScoredConcept.quality_score (sc : ScoredConcept) : ℚ :=
  sc.score.quality_score

/-! ## generation/generator.py: concept selection -/

/-- Python `max(xs, key=f)`: the first element attaining the maximal key
(`max` replaces the running maximum only on a strictly greater key);
`none` on the empty list, where Python raises `ValueError`. -/
def pyMax {α : Type} (key : α → ℚ) : List α → Option α
  | [] => none
  | x :: rest =>
      some (rest.foldl (fun best y => if key best < key y then y else best) x)

lemma pyMax_foldl_mem {α : Type} (key : α → ℚ) (x : α) (l : List α) :
    l.foldl (fun best y => if key best < key y then y else best) x ∈ x :: l := by
  induction l generalizing x with
  | nil => simp
  | cons a t ih =>
      simp only [List.foldl_cons]
      have h := ih (if key x < key a then a else x)
      rw [List.mem_cons] at h
      rcases h with h | h
      · rw [h]
        split
        · exact List.mem_cons_of_mem _ (List.mem_cons_self _ _)
        · exact List.mem_cons_self _ _
      · exact List.mem_cons_of_mem _ (List.mem_cons_of_mem _ h)

lemma pyMax_foldl_ge {α : Type} (key : α → ℚ) (x : α) (l : List α) :
    ∀ y ∈ x :: l,
      key y ≤ key (l.foldl (fun best y => if key best < key y then y else best) x) := by
  induction l generalizing x with
  | nil => simp
  | cons a t ih =>
      intro y hy
      simp only [List.foldl_cons]
      have hstep1 : key x ≤ key (if key x < key a then a else x) := by
        split
        · exact le_of_lt (by assumption)
        · exact le_rfl
      have hstep2 : key a ≤ key (if key x < key a then a else x) := by
        split
        · exact le_rfl
        · exact le_of_not_lt (by assumption)
      rw [List.mem_cons, List.mem_cons] at hy
      rcases hy with rfl | rfl | hy
      · exact hstep1.trans (ih _ _ (List.mem_cons_self _ _))
      · exact hstep2.trans (ih _ _ (List.mem_cons_self _ _))
      · exact ih _ y (List.mem_cons_of_mem _ hy)

lemma pyMax_mem {α : Type} {key : α → ℚ} {xs : List α} {b : α}
    (h : pyMax key xs = some b) : b ∈ xs := by
  cases xs with
  | nil => simp [pyMax] at h
  | cons x rest =>
      simp only [pyMax, Option.some.injEq] at h
      subst h
      exact pyMax_foldl_mem key x rest

lemma pyMax_ge {α : Type} {key : α → ℚ} {xs : List α} {b : α}
    (h : pyMax key xs = some b) : ∀ y ∈ xs, key y ≤ key b := by
  cases xs with
  | nil => simp [pyMax] at h
  | cons x rest =>
      simp only [pyMax, Option.some.injEq] at h
      subst h
      exact pyMax_foldl_ge key x rest

/-- `ContentGenerator._select_best_concept` (generator.py, lines 298-346):
filter by quality threshold, fall back to the whole list when the filter is
empty, raise `ValueError` only when there are no scored concepts at all, and
pick the maximum-scoring candidate.  The `none` branch of `pyMax` is the
source's explicit `raise ValueError` on an empty candidate list. -/
def selectBestConcept (quality_threshold : ℚ) (scored_concepts : List ScoredConcept) :
    Except String ScoredConcept :=
  let valid_concepts := scored_concepts.filter
    (fun sc => quality_threshold ≤ sc.quality_score)
  let valid_concepts := if valid_concepts.isEmpty then scored_concepts else valid_concepts
  match pyMax ScoredConcept.quality_score valid_concepts with
  | some best => .ok best
  | none => .error "No scored concepts available for selection."

lemma pyMax_eq_none {α : Type} (key : α → ℚ) (xs : List α) :
    pyMax key xs = none ↔ xs = [] := by
  cases xs <;> simp [pyMax]

lemma pyMax_of_ne_nil {α : Type} (key : α → ℚ) {xs : List α} (h : xs ≠ []) :
    ∃ b, pyMax key xs = some b := by
  cases xs with
  | nil => exact absurd rfl h
  | cons x rest => exact ⟨_, rfl⟩

/-- C3: for a non-empty scored-concept list, selection returns a
maximum-scoring concept among those meeting the quality threshold when at
least one does; otherwise it falls back to a maximum-scoring concept of the
entire unfiltered list without raising; it raises exactly when the
scored-concept list is empty. -/
theorem select_best_concept_spec (qt : ℚ) (scored : List ScoredConcept) :
    (selectBestConcept qt scored = .error "No scored concepts available for selection." ↔
      scored = []) ∧
    ((∃ sc ∈ scored, qt ≤ sc.quality_score) →
      ∃ best, selectBestConcept qt scored = .ok best ∧
        best ∈ scored ∧ qt ≤ best.quality_score ∧
        ∀ sc ∈ scored, qt ≤ sc.quality_score → sc.quality_score ≤ best.quality_score) ∧
    (scored ≠ [] → (∀ sc ∈ scored, sc.quality_score < qt) →
      ∃ best, selectBestConcept qt scored = .ok best ∧
        best ∈ scored ∧ ∀ sc ∈ scored, sc.quality_score ≤ best.quality_score) := by
  classical
  set eligible := scored.filter (fun sc => qt ≤ sc.quality_score) with heligible
  have hsel : selectBestConcept qt scored =
      match pyMax ScoredConcept.quality_score
        (if eligible.isEmpty then scored else eligible) with
      | some best => .ok best
      | none => .error "No scored concepts available for selection." := rfl
  refine ⟨⟨?_, ?_⟩, ?_, ?_⟩
  · intro herr
    rw [hsel] at herr
    rcases hmax : pyMax ScoredConcept.quality_score
        (if eligible.isEmpty then scored else eligible) with _ | b
    · rw [pyMax_eq_none] at hmax
      by_cases hemp : eligible.isEmpty
      · simpa [hemp] using hmax
      · rw [if_neg hemp] at hmax
        exact absurd (List.isEmpty_iff.mpr hmax) hemp
    · rw [hmax] at herr
      exact Except.noConfusion herr
  · rintro rfl
    simp [selectBestConcept, pyMax]
  · rintro ⟨sc, hmem, hsc⟩
    have hscmem : sc ∈ eligible := by
      rw [heligible, List.mem_filter]
      exact ⟨hmem, by simpa using hsc⟩
    have hne : eligible ≠ [] := fun h => by simp [h] at hscmem
    have hemp : eligible.isEmpty = false := by
      rw [List.isEmpty_eq_false_iff_exists_mem]
      exact ⟨sc, hscmem⟩
    obtain ⟨b, hb⟩ := pyMax_of_ne_nil ScoredConcept.quality_score hne
    have hbel : b ∈ eligible := pyMax_mem hb
    have hbsc : b ∈ scored ∧ qt ≤ b.quality_score := by
      rw [heligible, List.mem_filter] at hbel
      exact ⟨hbel.1, by simpa using hbel.2⟩
    refine ⟨b, ?_, hbsc.1, hbsc.2, ?_⟩
    · rw [hsel, hemp]
      simp [hb]
    · intro sc' hsc' hq
      apply pyMax_ge hb
      rw [heligible, List.mem_filter]
      exact ⟨hsc', by simpa using hq⟩
  · intro hne hall
    have hemp : eligible.isEmpty := by
      rw [List.isEmpty_iff, heligible, List.filter_eq_nil_iff]
      intro sc hmem
      simpa using not_le.mpr (hall sc hmem)
    obtain ⟨b, hb⟩ := pyMax_of_ne_nil ScoredConcept.quality_score hne
    refine ⟨b, ?_, pyMax_mem hb, fun sc hsc => pyMax_ge hb sc hsc⟩
    rw [hsel, hemp]
    simp [hb]

/-- Five concretely scored concepts (scores 0.3 / 0.8 / 0.5 / 0.9 / 0.7),
used to exercise the selection policy. -/
def demoScored : List ScoredConcept :=
  [⟨⟨"a", "", ""⟩, ⟨3/10, ""⟩⟩, ⟨⟨"b", "", ""⟩, ⟨8/10, ""⟩⟩,
   ⟨⟨"c", "", ""⟩, ⟨5/10, ""⟩⟩, ⟨⟨"d", "", ""⟩, ⟨9/10, ""⟩⟩,
   ⟨⟨"e", "", ""⟩, ⟨7/10, ""⟩⟩]

/-- Witness for `select_best_concept_spec`: the five demo concepts against
threshold 0.75, and against threshold 0.95 (where none clears it). -/
theorem select_best_concept_spec_witness :
    (∃ best, selectBestConcept (3/4) demoScored = .ok best ∧
      best ∈ demoScored ∧ (3/4 : ℚ) ≤ best.quality_score ∧
      ∀ sc ∈ demoScored,
        (3/4 : ℚ) ≤ sc.quality_score → sc.quality_score ≤ best.quality_score) ∧
    (∃ best, selectBestConcept (95/100) demoScored = .ok best ∧
      best ∈ demoScored ∧
      ∀ sc ∈ demoScored, sc.quality_score ≤ best.quality_score) := by
  constructor
  · exact (select_best_concept_spec (3/4) demoScored).2.1
      ⟨⟨⟨"b", "", ""⟩, ⟨8/10, ""⟩⟩, by simp [demoScored],
        by norm_num [ScoredConcept.quality_score]⟩
  · exact (select_best_concept_spec (95/100) demoScored).2.2 (by simp [demoScored])
      (by
        intro sc hsc
        simp only [demoScored, List.mem_cons, List.not_mem_nil, or_false] at hsc
        rcases hsc with rfl | rfl | rfl | rfl | rfl <;>
          norm_num [ScoredConcept.quality_score])

/-! ## generation/generator.py: the Phase 1-2 pipeline -/

/-- `GenerationResult` (generator.py, lines 31-48), generic over the drafted
content's schema type (`content: Any` in the source; only `VideoScript` is
populated in the reference system).  The time-based `generation_uuid` is
modelled as a constructor argument. -/
structure GenerationResult (α : Type) where
  content : α
  selected_concept : Concept
  concept_score : ℚ
  content_type : ContentType
  concepts : List Concept
  scored_concepts : List ScoredConcept
  product_context : Json
  reference_examples : Option (List String)
  generation_uuid : String

/-- `ContentGenerator.generate` (generator.py, lines 398-456), with the
provider calls of the three phases abstracted as fallible functions:
`ideate` for the Phase-1 call, `judge` for each Phase-1b call (the source has
no try/except around individual judge calls, so a judge failure propagates),
and `draft` for the Phase-2 call. -/
def generatorGenerate (α : Type)
    (ideate : Except String (List Concept))
    (judge : Concept → Except String ConceptScore)
    (draft : ScoredConcept → Except String α)
    (quality_threshold : ℚ) (content_type : ContentType)
    (product_context : Json) (reference_examples : Option (List String))
    (uuid : String) : Except String (GenerationResult α) := do
  -- Phase 1: Ideation
  let concepts ← ideate
  -- Validate concepts
  if concepts.isEmpty then
    throw "Ideation phase returned no concepts. Please try again or adjust creativity parameters."
  -- Phase 1b: Judge all concepts
  let scored_concepts ← concepts.mapM (fun c => do
    let score ← judge c
    pure (ScoredConcept.mk c score))
  -- Select best concept
  let best_concept ← selectBestConcept quality_threshold scored_concepts
  -- Phase 2: Draft content
  let content ← draft best_concept
  pure ⟨content, best_concept.concept, best_concept.quality_score, content_type,
    concepts, scored_concepts, product_context, reference_examples, uuid⟩

/-- C5: if the ideation provider call fails, `generate` propagates the error,
and if ideation returns an empty concept list, `generate` raises immediately;
in both cases no `GenerationResult` is produced. -/
theorem generator_hard_stop_on_ideation (α : Type) (e : String)
    (judge : Concept → Except String ConceptScore)
    (draft : ScoredConcept → Except String α)
    (qt : ℚ) (ct : ContentType) (pc : Json) (re : Option (List String))
    (uuid : String) :
    generatorGenerate α (.error e) judge draft qt ct pc re uuid = .error e ∧
    generatorGenerate α (.ok []) judge draft qt ct pc re uuid =
      .error "Ideation phase returned no concepts. Please try again or adjust creativity parameters." ∧
    (∀ r, generatorGenerate α (.error e) judge draft qt ct pc re uuid ≠ .ok r) ∧
    (∀ r, generatorGenerate α (.ok []) judge draft qt ct pc re uuid ≠ .ok r) := by
  have h1 : generatorGenerate α (.error e) judge draft qt ct pc re uuid =
      .error e := rfl
  have h2 : generatorGenerate α (.ok []) judge draft qt ct pc re uuid =
      .error "Ideation phase returned no concepts. Please try again or adjust creativity parameters." := rfl
  refine ⟨h1, h2, fun r h => ?_, fun r h => ?_⟩
  · rw [h1] at h
    exact Except.noConfusion h
  · rw [h2] at h
    exact Except.noConfusion h

/-! ## evaluation/models.py -/

/-- `CriterionScore` (evaluation/models.py, lines 11-15); pydantic restricts
`score` to `[1, 3]` at validation time, which no claim depends on. -/
structure CriterionScore where
  score : ℚ
  reason : String
deriving DecidableEq, Repr

/-- `GenericJudgeOutput` (evaluation/models.py, lines 18-27). -/
structure GenericJudgeOutput where
  hook_originality : CriterionScore
  visual_creativity : CriterionScore
  narrative_originality : CriterionScore
  entertainment_value : CriterionScore
  brand_integration : CriterionScore
  platform_fit : CriterionScore
  overall_creativity : CriterionScore
deriving DecidableEq, Repr

/-- `PersonaJudgeOutput` (evaluation/models.py, lines 30-40). -/
structure PersonaJudgeOutput where
  persona : String
  hook_originality : CriterionScore
  visual_creativity : CriterionScore
  narrative_originality : CriterionScore
  entertainment_value : CriterionScore
  brand_integration : CriterionScore
  platform_fit : CriterionScore
  overall_creativity : CriterionScore
deriving DecidableEq, Repr

/-- `EvaluationStats` (evaluation/models.py, lines 43-47).  The standard
deviation is irrational in general, so it lives in `ℝ`. -/
structure EvaluationStats where
  mean : ℚ
  std : ℝ

/-- `CriterionStats` (evaluation/models.py, lines 50-54). -/
structure CriterionStats where
  mean : ℚ
  std : ℝ

/-- `TemperatureBlock` (evaluation/models.py, lines 57-68).  The `criteria`
dict is an insertion-ordered association list; `by_temperature` keeps the
per-run outputs paired with their temperature. -/
structure TemperatureBlock where
  overall : EvaluationStats
  criteria : List (String × CriterionStats)
  by_temperature : List (ℚ × GenericJudgeOutput)

/-- `PersonaBlock` (evaluation/models.py, lines 71-82). -/
structure PersonaBlock where
  overall : EvaluationStats
  criteria : List (String × CriterionStats)
  by_persona : List (String × PersonaJudgeOutput)

/-- `AggregateResults` (evaluation/models.py, lines 85-92). -/
structure AggregateResults where
  overall : EvaluationStats
  criteria : List (String × CriterionStats)

/-- `CreativityAssessmentResult` (evaluation/models.py, lines 95-104);
`raw_judge_outputs` defaults to `None` and is never set by the evaluator. -/
structure CreativityAssessmentResult where
  temperature_block : Option TemperatureBlock
  persona_block : Option PersonaBlock
  aggregate : AggregateResults

/-! ## evaluation/evaluator.py: statistics helpers

The evaluator uses Python's `statistics.mean` and `statistics.stdev`
(arithmetic mean, and square root of the sample variance with the `n - 1`
denominator). -/

/-- `statistics.mean` (exact over rationals). -/
def pyMean (xs : List ℚ) : ℚ := xs.sum / xs.length

/-- The sample variance with denominator `n - 1`, the quantity whose square
root `statistics.stdev` returns. -/
def sampleVariance (xs : List ℚ) : ℚ :=
  (xs.map (fun x => (x - pyMean xs) ^ 2)).sum / ((xs.length : ℚ) - 1)

/-- `statistics.stdev`: the sample standard deviation. -/
noncomputable def pyStdev (xs : List ℚ) : ℝ :=
  Real.sqrt ((sampleVariance xs : ℚ) : ℝ)

/-- The evaluator's guarded use of `stdev`:
`statistics.stdev(scores) if len(scores) > 1 else 0.0`. -/
noncomputable def stdOrZero (xs : List ℚ) : ℝ :=
  if 1 < xs.length then pyStdev xs else 0

lemma stdOrZero_nonneg (xs : List ℚ) : 0 ≤ stdOrZero xs := by
  unfold stdOrZero
  split
  · exact Real.sqrt_nonneg _
  · exact le_refl 0

/-- The six fixed criterion names, in the order the evaluator iterates them
(evaluator.py, lines 597-604, 680-687, 727-734). -/
def criterionNames : List String :=
  ["hook_originality", "visual_creativity", "narrative_originality",
   "entertainment_value", "brand_integration", "platform_fit"]

/-- `getattr(eval, criterion_name)` over the six criterion names, for the
generic judge output: each name paired with its field accessor. -/
def genericAccessors : List (String × (GenericJudgeOutput → CriterionScore)) :=
  [("hook_originality", GenericJudgeOutput.hook_originality),
   ("visual_creativity", GenericJudgeOutput.visual_creativity),
   ("narrative_originality", GenericJudgeOutput.narrative_originality),
   ("entertainment_value", GenericJudgeOutput.entertainment_value),
   ("brand_integration", GenericJudgeOutput.brand_integration),
   ("platform_fit", GenericJudgeOutput.platform_fit)]

/-- `getattr(eval, criterion_name)` for the persona judge output. -/
def personaAccessors : List (String × (PersonaJudgeOutput → CriterionScore)) :=
  [("hook_originality", PersonaJudgeOutput.hook_originality),
   ("visual_creativity", PersonaJudgeOutput.visual_creativity),
   ("narrative_originality", PersonaJudgeOutput.narrative_originality),
   ("entertainment_value", PersonaJudgeOutput.entertainment_value),
   ("brand_integration", PersonaJudgeOutput.brand_integration),
   ("platform_fit", PersonaJudgeOutput.platform_fit)]

/-- The default temperature grid (evaluator.py, line 458). -/
def defaultTemperatureGrid : List ℚ :=
  [1/10, 2/10, 3/10, 4/10, 5/10, 6/10, 7/10, 8/10]

/-! ## evaluation/evaluator.py: the sweeps and aggregation -/

/-- `CreativityEvaluator._temperature_sweep` (evaluator.py, lines 551-627),
with each provider call abstracted as a fallible function of the temperature.
An exception from a call is caught (`except ... continue`), so a run
contributes to `successful_evaluations` exactly when its call returns `ok`;
fewer than 4 successes discard the whole block. -/
noncomputable def temperatureSweep (grid : List ℚ)
    (call : ℚ → Except String GenericJudgeOutput) : Option TemperatureBlock :=
  let successful_evaluations := grid.filterMap (fun t => (call t).toOption)
  let outputs := grid.filterMap (fun t => ((call t).toOption).map (fun o => (t, o)))
  if successful_evaluations.length < 4 then none
  else
    let overall_scores := successful_evaluations.map
      (fun e => e.overall_creativity.score)
    some
      { overall := ⟨pyMean overall_scores, stdOrZero overall_scores⟩
        criteria := genericAccessors.map (fun na =>
          let scores := successful_evaluations.map (fun e => (na.2 e).score)
          (na.1, CriterionStats.mk (pyMean scores) (stdOrZero scores)))
        by_temperature := outputs }

/-- `CreativityEvaluator._persona_sweep` (evaluator.py, lines 629-710), with
each provider call abstracted as a fallible function of the
(name, description) persona pair; the 4-of-n quorum is identical to the
temperature sweep's. -/
noncomputable def personaSweep (personas : List (String × String))
    (call : String × String → Except String PersonaJudgeOutput) :
    Option PersonaBlock :=
  let successful_evaluations := personas.filterMap (fun p => (call p).toOption)
  let outputs := personas.filterMap
    (fun p => ((call p).toOption).map (fun o => (p.1, o)))
  if successful_evaluations.length < 4 then none
  else
    let overall_scores := successful_evaluations.map
      (fun e => e.overall_creativity.score)
    some
      { overall := ⟨pyMean overall_scores, stdOrZero overall_scores⟩
        criteria := personaAccessors.map (fun na =>
          let scores := successful_evaluations.map (fun e => (na.2 e).score)
          (na.1, CriterionStats.mk (pyMean scores) (stdOrZero scores)))
        by_persona := outputs }

/-- Lookup in the criteria dict (`block.criteria[criterion_name]`, which in
Python raises `KeyError` on a missing key). -/
def pyDictGet (d : List (String × CriterionStats)) (k : String) :
    Option CriterionStats :=
  (d.find? (fun kv => kv.1 = k)).map Prod.snd

/-- `block.criteria[criterion_name]` as used by `_aggregate_results`: blocks
produced by the sweeps always contain all six criterion names, so the
`KeyError` case (modelled by the zero default) is unreachable there. -/
def dictGetD (d : List (String × CriterionStats)) (k : String) : CriterionStats :=
  (pyDictGet d k).getD ⟨0, 0⟩

/-- `CreativityEvaluator._aggregate_results` (evaluator.py, lines 712-779). -/
def aggregateResults (temperature_block : Option TemperatureBlock)
    (persona_block : Option PersonaBlock) : AggregateResults :=
  match temperature_block, persona_block with
  | some t, some p =>
      -- Mean of means for overall, max of stds
      { overall := ⟨(t.overall.mean + p.overall.mean) / 2,
          max t.overall.std p.overall.std⟩
        criteria := criterionNames.map (fun name =>
          let ts := dictGetD t.criteria name
          let ps := dictGetD p.criteria name
          (name, CriterionStats.mk ((ts.mean + ps.mean) / 2) (max ts.std ps.std))) }
  | some t, none =>
      -- Only temperature block available
      ⟨t.overall, t.criteria⟩
  | none, some p =>
      -- Only persona block available
      ⟨p.overall, p.criteria⟩
  | none, none =>
      -- Both blocks failed - return default
      ⟨⟨0, 0⟩, criterionNames.map (fun name => (name, CriterionStats.mk 0 0))⟩

/-- `CreativityEvaluator.score_script` (evaluator.py, lines 468-511):
temperature sweep, persona sweep, then aggregation. -/
noncomputable def scoreScript (grid : List ℚ)
    (tcall : ℚ → Except String GenericJudgeOutput)
    (personas : List (String × String))
    (pcall : String × String → Except String PersonaJudgeOutput) :
    CreativityAssessmentResult :=
  let temperature_block := temperatureSweep grid tcall
  let persona_block := personaSweep personas pcall
  ⟨temperature_block, persona_block,
    aggregateResults temperature_block persona_block⟩

/-! ### Dict-lookup helpers -/

lemma find_map_entry {A γ : Type} :
    ∀ (l : List (String × A)) (f : String × A → γ), (l.map Prod.fst).Nodup →
      ∀ {p : String × A}, p ∈ l →
        (l.map (fun q => (q.1, f q))).find? (fun kv => kv.1 = p.1) = some (p.1, f p) := by
  intro l
  induction l with
  | nil =>
      intro f _ p hp
      simp at hp
  | cons a t ih =>
      intro f hnd p hp
      rcases List.mem_cons.mp hp with rfl | hpt
      · rw [List.map_cons, List.find?_cons_of_pos _ (by simp)]
      · have hne : a.1 ≠ p.1 := by
          intro h
          have hmem : p.1 ∈ t.map Prod.fst := List.mem_map_of_mem Prod.fst hpt
          rw [← h] at hmem
          exact (List.nodup_cons.mp hnd).1 hmem
        rw [List.map_cons, List.find?_cons_of_neg _ (by simp [hne])]
        exact ih f (List.nodup_cons.mp hnd).2 hpt

lemma find_map_name {γ : Type} :
    ∀ (l : List String) (f : String → γ), l.Nodup →
      ∀ {n : String}, n ∈ l →
        (l.map (fun m => (m, f m))).find? (fun kv => kv.1 = n) = some (n, f n) := by
  intro l
  induction l with
  | nil =>
      intro f _ n hn
      simp at hn
  | cons a t ih =>
      intro f hnd n hn
      rcases List.mem_cons.mp hn with rfl | hnt
      · rw [List.map_cons, List.find?_cons_of_pos _ (by simp)]
      · have hne : a ≠ n := by
          intro h
          rw [h] at hnd
          exact (List.nodup_cons.mp hnd).1 hnt
        rw [List.map_cons, List.find?_cons_of_neg _ (by simp [hne])]
        exact ih f (List.nodup_cons.mp hnd).2 hnt

lemma genericAccessors_keys_nodup : (genericAccessors.map Prod.fst).Nodup := by
  simp [genericAccessors]

lemma personaAccessors_keys_nodup : (personaAccessors.map Prod.fst).Nodup := by
  simp [personaAccessors]

lemma criterionNames_nodup : criterionNames.Nodup := by
  simp [criterionNames]

/-! ### C1: quorum and statistics of the two sweeps -/

/-- C1: for each sweep, every individual judge-call failure is tolerated; the
block is `none` exactly when fewer than 4 calls succeed; and a present block
carries the arithmetic mean of the successful runs' `overall_creativity`
scores together with their sample standard deviation, and the same statistics
per criterion. -/
theorem sweep_quorum_and_stats
    (grid : List ℚ) (tcall : ℚ → Except String GenericJudgeOutput)
    (personas : List (String × String))
    (pcall : String × String → Except String PersonaJudgeOutput) :
    (temperatureSweep grid tcall = none ↔
      (grid.filterMap (fun t => (tcall t).toOption)).length < 4) ∧
    (∀ b, temperatureSweep grid tcall = some b →
      b.overall.mean =
        ((grid.filterMap (fun t => (tcall t).toOption)).map
          (fun e => e.overall_creativity.score)).sum /
        ((grid.filterMap (fun t => (tcall t).toOption)).map
          (fun e => e.overall_creativity.score)).length ∧
      b.overall.std = pyStdev ((grid.filterMap (fun t => (tcall t).toOption)).map
        (fun e => e.overall_creativity.score)) ∧
      ∀ na ∈ genericAccessors,
        pyDictGet b.criteria na.1 = some
          ⟨pyMean ((grid.filterMap (fun t => (tcall t).toOption)).map
              (fun e => (na.2 e).score)),
            pyStdev ((grid.filterMap (fun t => (tcall t).toOption)).map
              (fun e => (na.2 e).score))⟩) ∧
    (personaSweep personas pcall = none ↔
      (personas.filterMap (fun p => (pcall p).toOption)).length < 4) ∧
    (∀ b, personaSweep personas pcall = some b →
      b.overall.mean =
        ((personas.filterMap (fun p => (pcall p).toOption)).map
          (fun e => e.overall_creativity.score)).sum /
        ((personas.filterMap (fun p => (pcall p).toOption)).map
          (fun e => e.overall_creativity.score)).length ∧
      b.overall.std = pyStdev ((personas.filterMap (fun p => (pcall p).toOption)).map
        (fun e => e.overall_creativity.score)) ∧
      ∀ na ∈ personaAccessors,
        pyDictGet b.criteria na.1 = some
          ⟨pyMean ((personas.filterMap (fun p => (pcall p).toOption)).map
              (fun e => (na.2 e).score)),
            pyStdev ((personas.filterMap (fun p => (pcall p).toOption)).map
              (fun e => (na.2 e).score))⟩) := by
  refine ⟨?_, ?_, ?_, ?_⟩
  · unfold temperatureSweep
    dsimp only
    split_ifs with h4 <;> simp [h4]
  · intro b hb
    unfold temperatureSweep at hb
    dsimp only at hb
    split_ifs at hb with h4
    rw [Option.some.injEq] at hb
    subst hb
    have hlen : ∀ f : GenericJudgeOutput → ℚ,
        1 < ((grid.filterMap (fun t => (tcall t).toOption)).map f).length := by
      intro f
      rw [List.length_map]
      omega
    refine ⟨rfl, ?_, ?_⟩
    · show stdOrZero _ = _
      rw [stdOrZero, if_pos (hlen _)]
    · intro na hna
      have h := find_map_entry genericAccessors
        (fun na => CriterionStats.mk
          (pyMean ((grid.filterMap (fun t => (tcall t).toOption)).map
            (fun e => (na.2 e).score)))
          (stdOrZero ((grid.filterMap (fun t => (tcall t).toOption)).map
            (fun e => (na.2 e).score))))
        genericAccessors_keys_nodup hna
      show (List.find? _ _).map Prod.snd = _
      rw [h]
      simp only [Option.map_some]
      rw [stdOrZero, if_pos (hlen _)]
      rfl
  · unfold personaSweep
    dsimp only
    split_ifs with h4 <;> simp [h4]
  · intro b hb
    unfold personaSweep at hb
    dsimp only at hb
    split_ifs at hb with h4
    rw [Option.some.injEq] at hb
    subst hb
    have hlen : ∀ f : PersonaJudgeOutput → ℚ,
        1 < ((personas.filterMap (fun p => (pcall p).toOption)).map f).length := by
      intro f
      rw [List.length_map]
      omega
    refine ⟨rfl, ?_, ?_⟩
    · show stdOrZero _ = _
      rw [stdOrZero, if_pos (hlen _)]
    · intro na hna
      have h := find_map_entry personaAccessors
        (fun na => CriterionStats.mk
          (pyMean ((personas.filterMap (fun p => (pcall p).toOption)).map
            (fun e => (na.2 e).score)))
          (stdOrZero ((personas.filterMap (fun p => (pcall p).toOption)).map
            (fun e => (na.2 e).score))))
        personaAccessors_keys_nodup hna
      show (List.find? _ _).map Prod.snd = _
      rw [h]
      simp only [Option.map_some]
      rw [stdOrZero, if_pos (hlen _)]
      rfl

/-! ### Demo judge calls for exercising the sweeps -/

/-- A concrete criterion score used by the demo judge outputs. -/
def demoCriterion : CriterionScore := ⟨2, "demo"⟩

/-- A concrete generic judge output (all criteria scored 2). -/
def demoGenericOutput : GenericJudgeOutput :=
  ⟨demoCriterion, demoCriterion, demoCriterion, demoCriterion,
   demoCriterion, demoCriterion, demoCriterion⟩

/-- A concrete persona judge output (all criteria scored 2). -/
def demoPersonaOutput : PersonaJudgeOutput :=
  ⟨"demo", demoCriterion, demoCriterion, demoCriterion, demoCriterion,
   demoCriterion, demoCriterion, demoCriterion⟩

/-- A judge-call stub succeeding on exactly the 4 lowest grid temperatures. -/
def demoTCall (t : ℚ) : Except String GenericJudgeOutput :=
  if t ≤ 4/10 then .ok demoGenericOutput else .error "API error"

/-- A judge-call stub succeeding on exactly the 3 lowest grid temperatures. -/
def demoTCall3 (t : ℚ) : Except String GenericJudgeOutput :=
  if t ≤ 3/10 then .ok demoGenericOutput else .error "API error"

/-- Eight demo personas. -/
def demoPersonas : List (String × String) :=
  [("p1", ""), ("p2", ""), ("p3", ""), ("p4", ""),
   ("p5", ""), ("p6", ""), ("p7", ""), ("p8", "")]

/-- A persona judge-call stub succeeding on exactly 4 of the 8 personas. -/
def demoPCall (p : String × String) : Except String PersonaJudgeOutput :=
  if p.1 ∈ ["p1", "p2", "p3", "p4"] then .ok demoPersonaOutput
  else .error "API error"

/-- A persona judge-call stub succeeding on exactly 3 of the 8 personas. -/
def demoPCall3 (p : String × String) : Except String PersonaJudgeOutput :=
  if p.1 ∈ ["p1", "p2", "p3"] then .ok demoPersonaOutput
  else .error "API error"

lemma demoTCall_count :
    (defaultTemperatureGrid.filterMap (fun t => (demoTCall t).toOption)).length = 4 := by
  simp only [defaultTemperatureGrid, demoTCall, List.filterMap_cons, List.filterMap_nil]
  norm_num [Except.toOption]

lemma demoTCall3_count :
    (defaultTemperatureGrid.filterMap (fun t => (demoTCall3 t).toOption)).length = 3 := by
  simp only [defaultTemperatureGrid, demoTCall3, List.filterMap_cons, List.filterMap_nil]
  norm_num [Except.toOption]

lemma demoPCall_count :
    (demoPersonas.filterMap (fun p => (demoPCall p).toOption)).length = 4 := by
  decide

lemma demoPCall3_count :
    (demoPersonas.filterMap (fun p => (demoPCall3 p).toOption)).length = 3 := by
  decide

lemma demoT_isSome : (temperatureSweep defaultTemperatureGrid demoTCall).isSome := by
  unfold temperatureSweep
  dsimp only
  rw [if_neg (by rw [demoTCall_count]; norm_num)]
  rfl

lemma demoP_isSome : (personaSweep demoPersonas demoPCall).isSome := by
  unfold personaSweep
  dsimp only
  rw [if_neg (by rw [demoPCall_count]; norm_num)]
  rfl

/-- The temperature block of the 4-of-8 demo temperature sweep. -/
noncomputable def demoBlockT : TemperatureBlock :=
  (temperatureSweep defaultTemperatureGrid demoTCall).get demoT_isSome

/-- The persona block of the 4-of-8 demo persona sweep. -/
noncomputable def demoBlockP : PersonaBlock :=
  (personaSweep demoPersonas demoPCall).get demoP_isSome

/-- Witness for `sweep_quorum_and_stats`: with exactly 4 of 8 calls
succeeding each sweep's block is present and carries the mean/std statistics
(shown here for the overall score and the `hook_originality` criterion); with
exactly 3 of 8 succeeding the block is absent. -/
theorem sweep_quorum_and_stats_witness :
    temperatureSweep defaultTemperatureGrid demoTCall = some demoBlockT ∧
    demoBlockT.overall.mean =
      ((defaultTemperatureGrid.filterMap (fun t => (demoTCall t).toOption)).map
        (fun e => e.overall_creativity.score)).sum /
      ((defaultTemperatureGrid.filterMap (fun t => (demoTCall t).toOption)).map
        (fun e => e.overall_creativity.score)).length ∧
    demoBlockT.overall.std =
      pyStdev ((defaultTemperatureGrid.filterMap (fun t => (demoTCall t).toOption)).map
        (fun e => e.overall_creativity.score)) ∧
    pyDictGet demoBlockT.criteria "hook_originality" = some
      ⟨pyMean ((defaultTemperatureGrid.filterMap (fun t => (demoTCall t).toOption)).map
          (fun e => e.hook_originality.score)),
        pyStdev ((defaultTemperatureGrid.filterMap (fun t => (demoTCall t).toOption)).map
          (fun e => e.hook_originality.score))⟩ ∧
    temperatureSweep defaultTemperatureGrid demoTCall3 = none ∧
    personaSweep demoPersonas demoPCall = some demoBlockP ∧
    demoBlockP.overall.mean =
      ((demoPersonas.filterMap (fun p => (demoPCall p).toOption)).map
        (fun e => e.overall_creativity.score)).sum /
      ((demoPersonas.filterMap (fun p => (demoPCall p).toOption)).map
        (fun e => e.overall_creativity.score)).length ∧
    personaSweep demoPersonas demoPCall3 = none := by
  have hsomeT : temperatureSweep defaultTemperatureGrid demoTCall = some demoBlockT :=
    (Option.some_get demoT_isSome).symm
  have hsomeP : personaSweep demoPersonas demoPCall = some demoBlockP :=
    (Option.some_get demoP_isSome).symm
  have hT := (sweep_quorum_and_stats defaultTemperatureGrid demoTCall
    demoPersonas demoPCall).2.1 demoBlockT hsomeT
  have hP := (sweep_quorum_and_stats defaultTemperatureGrid demoTCall
    demoPersonas demoPCall).2.2.2 demoBlockP hsomeP
  have hhook := hT.2.2 ("hook_originality", GenericJudgeOutput.hook_originality)
    (by unfold genericAccessors; exact List.mem_cons_self _ _)
  have hnoneT := (sweep_quorum_and_stats defaultTemperatureGrid demoTCall3
    demoPersonas demoPCall).1.mpr (by rw [demoTCall3_count]; norm_num)
  have hnoneP := (sweep_quorum_and_stats defaultTemperatureGrid demoTCall
    demoPersonas demoPCall3).2.2.1.mpr (by rw [demoPCall3_count]; norm_num)
  exact ⟨hsomeT, hT.1, hT.2.1, hhook, hnoneT, hsomeP, hP.1, hnoneP⟩

/-! ### C2: aggregation of the two blocks -/

/-- C2: aggregation of the two optional blocks: with both present, mean of
the two block means and maximum of the two block stds (overall and per
criterion); with exactly one present, that block's stats unchanged; with both
absent, all-zero stats for the overall score and the six criteria.  The
function is total, so aggregation never raises. -/
theorem aggregate_results_spec :
    (∀ (t : TemperatureBlock) (p : PersonaBlock),
      (aggregateResults (some t) (some p)).overall.mean =
        (t.overall.mean + p.overall.mean) / 2 ∧
      (aggregateResults (some t) (some p)).overall.std =
        max t.overall.std p.overall.std ∧
      (∀ name ∈ criterionNames, ∀ ts ps,
        pyDictGet t.criteria name = some ts →
        pyDictGet p.criteria name = some ps →
        pyDictGet (aggregateResults (some t) (some p)).criteria name =
          some ⟨(ts.mean + ps.mean) / 2, max ts.std ps.std⟩)) ∧
    (∀ t : TemperatureBlock,
      aggregateResults (some t) none = ⟨t.overall, t.criteria⟩) ∧
    (∀ p : PersonaBlock,
      aggregateResults none (some p) = ⟨p.overall, p.criteria⟩) ∧
    (aggregateResults none none).overall = ⟨0, 0⟩ ∧
    (aggregateResults none none).criteria =
      criterionNames.map (fun name => (name, CriterionStats.mk 0 0)) := by
  refine ⟨?_, fun t => rfl, fun p => rfl, rfl, rfl⟩
  intro t p
  refine ⟨rfl, rfl, ?_⟩
  intro name hname ts ps hts hps
  have h := find_map_name criterionNames
    (fun m => CriterionStats.mk
      (((dictGetD t.criteria m).mean + (dictGetD p.criteria m).mean) / 2)
      (max (dictGetD t.criteria m).std (dictGetD p.criteria m).std))
    criterionNames_nodup hname
  show (List.find? _ _).map Prod.snd = _
  dsimp only [aggregateResults]
  rw [h]
  simp only [Option.map_some]
  rw [dictGetD, hts, dictGetD, hps]
  rfl

/-- A demo temperature block carrying the spec's worked example
(overall mean 2.0, std 0.1; every criterion 2.0 ± 0.1). -/
noncomputable def demoTempBlock : TemperatureBlock :=
  ⟨⟨2, 1/10⟩, criterionNames.map (fun n => (n, CriterionStats.mk 2 (1/10))), []⟩

/-- A demo persona block carrying the spec's worked example
(overall mean 2.4, std 0.3; every criterion 2.4 ± 0.3). -/
noncomputable def demoPersBlock : PersonaBlock :=
  ⟨⟨12/5, 3/10⟩, criterionNames.map (fun n => (n, CriterionStats.mk (12/5) (3/10))), []⟩

/-- Witness for `aggregate_results_spec`: temperature block
(mean 2.0, std 0.1) and persona block (mean 2.4, std 0.3) aggregate to
mean 2.2 and std 0.3 (the maximum, not the average). -/
theorem aggregate_results_spec_witness :
    (aggregateResults (some demoTempBlock) (some demoPersBlock)).overall.mean = 11/5 ∧
    (aggregateResults (some demoTempBlock) (some demoPersBlock)).overall.std = 3/10 ∧
    pyDictGet (aggregateResults (some demoTempBlock) (some demoPersBlock)).criteria
      "hook_originality" = some ⟨11/5, 3/10⟩ := by
  have h := aggregate_results_spec.1 demoTempBlock demoPersBlock
  have hmem : "hook_originality" ∈ criterionNames := by
    unfold criterionNames
    exact List.mem_cons_self _ _
  have hts : pyDictGet demoTempBlock.criteria "hook_originality" =
      some (CriterionStats.mk 2 (1/10)) := by
    show (List.find? _ _).map Prod.snd = _
    dsimp only [demoTempBlock]
    rw [find_map_name criterionNames (fun _ => CriterionStats.mk 2 (1/10))
      criterionNames_nodup hmem]
    rfl
  have hps : pyDictGet demoPersBlock.criteria "hook_originality" =
      some (CriterionStats.mk (12/5) (3/10)) := by
    show (List.find? _ _).map Prod.snd = _
    dsimp only [demoPersBlock]
    rw [find_map_name criterionNames (fun _ => CriterionStats.mk (12/5) (3/10))
      criterionNames_nodup hmem]
    rfl
  have hcrit := h.2.2 "hook_originality" hmem _ _ hts hps
  have hmax : max ((1:ℝ)/10) (3/10) = 3/10 := max_eq_right (by norm_num)
  refine ⟨?_, ?_, ?_⟩
  · rw [h.1]
    norm_num [demoTempBlock, demoPersBlock]
  · rw [h.2.1]
    show max ((1:ℝ)/10) (3/10) = 3/10
    exact hmax
  · rw [hcrit]
    norm_num [hmax]

/-! ### C10: shape and sign invariants of the aggregate -/

lemma temperatureSweep_block_props {grid : List ℚ}
    {tcall : ℚ → Except String GenericJudgeOutput} {b : TemperatureBlock}
    (hb : temperatureSweep grid tcall = some b) :
    b.criteria.map Prod.fst = criterionNames ∧ ∀ e ∈ b.criteria, 0 ≤ e.2.std := by
  unfold temperatureSweep at hb
  dsimp only at hb
  split_ifs at hb with h4
  rw [Option.some.injEq] at hb
  subst hb
  constructor
  · simp [genericAccessors, criterionNames]
  · intro e he
    obtain ⟨na, hna, rfl⟩ := List.mem_map.mp he
    exact stdOrZero_nonneg _

lemma personaSweep_block_props {personas : List (String × String)}
    {pcall : String × String → Except String PersonaJudgeOutput} {b : PersonaBlock}
    (hb : personaSweep personas pcall = some b) :
    b.criteria.map Prod.fst = criterionNames ∧ ∀ e ∈ b.criteria, 0 ≤ e.2.std := by
  unfold personaSweep at hb
  dsimp only at hb
  split_ifs at hb with h4
  rw [Option.some.injEq] at hb
  subst hb
  constructor
  · simp [personaAccessors, criterionNames]
  · intro e he
    obtain ⟨na, hna, rfl⟩ := List.mem_map.mp he
    exact stdOrZero_nonneg _

lemma map_pair_fst {γ : Type} (l : List String) (f : String → γ) :
    (l.map (fun n => (n, f n))).map Prod.fst = l := by
  rw [List.map_map]
  have hcomp : (Prod.fst ∘ fun n : String => (n, f n)) = id := rfl
  rw [hcomp, List.map_id]

lemma dictGetD_std_nonneg {d : List (String × CriterionStats)} {k : String}
    (h : ∀ e ∈ d, 0 ≤ e.2.std) : 0 ≤ (dictGetD d k).std := by
  unfold dictGetD pyDictGet
  cases hf : d.find? (fun kv => kv.1 = k) with
  | none => exact le_refl 0
  | some kv =>
      show (0:ℝ) ≤ kv.2.std
      exact h kv (List.mem_of_find?_eq_some hf)

/-- C10: whatever the outcome of the two sweeps, the aggregate's criteria
mapping has exactly the six fixed criterion names as its keys, each entry
with a non-negative standard deviation. -/
theorem aggregate_invariant (grid : List ℚ)
    (tcall : ℚ → Except String GenericJudgeOutput)
    (personas : List (String × String))
    (pcall : String × String → Except String PersonaJudgeOutput) :
    (aggregateResults (temperatureSweep grid tcall)
      (personaSweep personas pcall)).criteria.map Prod.fst = criterionNames ∧
    ∀ e ∈ (aggregateResults (temperatureSweep grid tcall)
      (personaSweep personas pcall)).criteria, 0 ≤ e.2.std := by
  rcases ht : temperatureSweep grid tcall with _ | tb <;>
    rcases hp : personaSweep personas pcall with _ | pb
  · constructor
    · exact map_pair_fst criterionNames (fun _ => CriterionStats.mk 0 0)
    · intro e he
      dsimp only [aggregateResults] at he
      obtain ⟨n, hn, rfl⟩ := List.mem_map.mp he
      exact le_refl 0
  · obtain ⟨hk, hs⟩ := personaSweep_block_props hp
    exact ⟨hk, hs⟩
  · obtain ⟨hk, hs⟩ := temperatureSweep_block_props ht
    exact ⟨hk, hs⟩
  · obtain ⟨hkt, hst⟩ := temperatureSweep_block_props ht
    obtain ⟨hkp, hsp⟩ := personaSweep_block_props hp
    constructor
    · exact map_pair_fst criterionNames _
    · intro e he
      dsimp only [aggregateResults] at he
      obtain ⟨n, hn, rfl⟩ := List.mem_map.mp he
      exact le_trans (dictGetD_std_nonneg hst) (le_max_left _ _)

/-! ## engine.py: the orchestrator -/

/-- `EngineResult` (engine.py, lines 23-34); its `uuid` defaults to the
generation's `generation_uuid`. -/
structure EngineResult (α : Type) where
  generation : GenerationResult α
  evaluation : Option CreativityAssessmentResult
  uuid : String

/-- `CreativeEngine.generate` (engine.py, lines 107-167): run the generator
(whose outcome is abstracted as `genOutcome`; a generation failure
propagates), then, when `evaluate_creativity` is set and the content type is
`video_script`, run the evaluator inside a try/except whose handler keeps
`assessment = None` (`(evalCall gen).toOption`); for any other content type
evaluation is skipped with a warning. -/
def engineGenerate (α : Type) (genOutcome : Except String (GenerationResult α))
    (evalCall : GenerationResult α → Except String CreativityAssessmentResult)
    (content_type : ContentType) (evaluate_creativity : Bool) :
    Except String (EngineResult α) :=
  match genOutcome with
  | .error e => .error e
  | .ok gen_result =>
      let assessment : Option CreativityAssessmentResult :=
        if evaluate_creativity then
          if content_type = ContentType.video_script then
            (evalCall gen_result).toOption
          else none
        else none
      .ok ⟨gen_result, assessment, gen_result.generation_uuid⟩

/-- C7: with `evaluate_creativity = true`, a non-video-script content type
skips evaluation as a no-op (`evaluation = none`, no error), and a raising
evaluator is caught: the request still returns an `EngineResult` whose
generation result is the full generator output and whose evaluation is
`none`. -/
theorem engine_evaluation_best_effort (α : Type) (gen : GenerationResult α)
    (evalCall : GenerationResult α → Except String CreativityAssessmentResult)
    (content_type : ContentType) :
    (content_type ≠ ContentType.video_script →
      engineGenerate α (.ok gen) evalCall content_type true =
        .ok ⟨gen, none, gen.generation_uuid⟩) ∧
    (∀ e, evalCall gen = .error e →
      engineGenerate α (.ok gen) evalCall content_type true =
        .ok ⟨gen, none, gen.generation_uuid⟩) := by
  constructor
  · intro hne
    simp [engineGenerate, hne]
  · intro e he
    by_cases hct : content_type = ContentType.video_script
    · simp [engineGenerate, hct, he, Except.toOption]
    · simp [engineGenerate, hct]

/-- A concrete generation result over a string content payload. -/
def demoGenResult : GenerationResult String :=
  ⟨"script", ⟨"t", "d", "h"⟩, 9/10, ContentType.video_script, [], [],
    Json.null, none, "uuid-1"⟩

/-- Witness for `engine_evaluation_best_effort`: a non-video-script request
and a video-script request whose evaluator raises both yield an ok result
with `evaluation = none`. -/
theorem engine_evaluation_best_effort_witness :
    engineGenerate String (.ok demoGenResult)
      (fun _ => .error "eval boom") ContentType.linkedin_post true =
      .ok ⟨demoGenResult, none, demoGenResult.generation_uuid⟩ ∧
    engineGenerate String (.ok demoGenResult)
      (fun _ => .error "eval boom") ContentType.video_script true =
      .ok ⟨demoGenResult, none, demoGenResult.generation_uuid⟩ := by
  constructor
  · exact (engine_evaluation_best_effort String demoGenResult
      (fun _ => .error "eval boom") ContentType.linkedin_post).1 (by decide)
  · exact (engine_evaluation_best_effort String demoGenResult
      (fun _ => .error "eval boom") ContentType.video_script).2 "eval boom" rfl

/-! ## generation/models.py: the VideoScript schema and its serialization -/

/-- The `Literal` platform values of `VideoMeta.platform`
(generation/models.py, lines 47-53). -/
inductive Platform where
  | tiktok
  | instagram
  | youtube_shorts
  | linkedin
deriving DecidableEq, Repr

/-- The string payload of each platform value. -/
def Platform.value : Platform → String
  | .tiktok => "tiktok"
  | .instagram => "instagram"
  | .youtube_shorts => "youtube_shorts"
  | .linkedin => "linkedin"

/-- Pydantic validation of the platform `Literal`: only the four strings. -/
def Platform.ofString : String → Option Platform
  | "tiktok" => some .tiktok
  | "instagram" => some .instagram
  | "youtube_shorts" => some .youtube_shorts
  | "linkedin" => some .linkedin
  | _ => none

/-- The `Literal` role values of `Scene.role`
(generation/models.py, lines 69-71). -/
inductive SceneRole where
  | hook
  | problem
  | solution
  | cta
  | other
deriving DecidableEq, Repr

/-- The string payload of each scene role. -/
def SceneRole.value : SceneRole → String
  | .hook => "hook"
  | .problem => "problem"
  | .solution => "solution"
  | .cta => "cta"
  | .other => "other"

/-- Pydantic validation of the role `Literal`: only the five strings. -/
def SceneRole.ofString : String → Option SceneRole
  | "hook" => some .hook
  | "problem" => some .problem
  | "solution" => some .solution
  | "cta" => some .cta
  | "other" => some .other
  | _ => none

/-- `Audio` (generation/models.py, lines 56-60). -/
structure Audio where
  music : Option String
  sfx : Option String
deriving DecidableEq, Repr

/-- `Scene` (generation/models.py, lines 63-78).  Pydantic enforces
`start_sec >= 0` and `end_sec >= 0` at validation time. -/
structure Scene where
  id : ℤ
  start_sec : ℚ
  end_sec : ℚ
  role : SceneRole
  visual : String
  camera : String
  action : String
  dialogue : String
  on_screen_text : Option String
  audio : Audio
  notes_for_model : Option String
deriving DecidableEq, Repr

/-- `VideoMeta` (generation/models.py, lines 47-53). -/
structure VideoMeta where
  duration_seconds : ℤ
  platform : Platform
deriving DecidableEq, Repr

/-- `VideoScript` (generation/models.py, lines 81-85). -/
structure VideoScript where
  video_meta : VideoMeta
  scenes : List Scene
deriving DecidableEq, Repr

/-- An `Optional[str]` field in nested-mapping form. -/
def optStr : Option String → Json
  | none => .null
  | some s => .str s

/-- `Audio.model_dump()`. -/
def Audio.model_dump (a : Audio) : Json :=
  .obj [("music", optStr a.music), ("sfx", optStr a.sfx)]

/-- `Scene.model_dump()`: fields in declaration order. -/
def Scene.model_dump (s : Scene) : Json :=
  .obj [("id", .int s.id), ("start_sec", .rat s.start_sec),
        ("end_sec", .rat s.end_sec), ("role", .str s.role.value),
        ("visual", .str s.visual), ("camera", .str s.camera),
        ("action", .str s.action), ("dialogue", .str s.dialogue),
        ("on_screen_text", optStr s.on_screen_text),
        ("audio", s.audio.model_dump),
        ("notes_for_model", optStr s.notes_for_model)]

/-- `VideoMeta.model_dump()`. -/
def VideoMeta.model_dump (m : VideoMeta) : Json :=
  .obj [("duration_seconds", .int m.duration_seconds),
        ("platform", .str m.platform.value)]

/-- `VideoScript.model_dump()`. -/
def VideoScript.model_dump (v : VideoScript) : Json :=
  .obj [("video_meta", v.video_meta.model_dump),
        ("scenes", .arr (v.scenes.map Scene.model_dump))]

/-- A required `str` field. -/
def asStr : Json → Option String
  | .str s => some s
  | _ => none

/-- A required `int` field. -/
def asInt : Json → Option ℤ
  | .int n => some n
  | _ => none

/-- A required `float` field (pydantic also accepts an int here). -/
def asRat : Json → Option ℚ
  | .rat q => some q
  | .int n => some (n : ℚ)
  | _ => none

/-- An `Optional[str] = None` field: an absent key or an explicit null both
validate to `none`. -/
def asOptStr (j : Json) (key : String) : Option (Option String) :=
  match (j.get key).getD .null with
  | .null => some none
  | .str s => some (some s)
  | _ => none

/-- Pydantic re-hydration `Audio.model_validate`. -/
def Audio.model_validate (j : Json) : Option Audio := do
  let music ← asOptStr j "music"
  let sfx ← asOptStr j "sfx"
  pure ⟨music, sfx⟩

/-- Pydantic re-hydration `Scene.model_validate`, including the `ge=0`
constraints on `start_sec` and `end_sec` and the `Literal` role check. -/
def Scene.model_validate (j : Json) : Option Scene := do
  let id ← j.get "id" >>= asInt
  let start_sec ← j.get "start_sec" >>= asRat
  if 0 ≤ start_sec then
    let end_sec ← j.get "end_sec" >>= asRat
    if 0 ≤ end_sec then
      let role ← j.get "role" >>= asStr >>= SceneRole.ofString
      let visual ← j.get "visual" >>= asStr
      let camera ← j.get "camera" >>= asStr
      let action ← j.get "action" >>= asStr
      let dialogue ← j.get "dialogue" >>= asStr
      let on_screen_text ← asOptStr j "on_screen_text"
      let audio ← j.get "audio" >>= Audio.model_validate
      let notes_for_model ← asOptStr j "notes_for_model"
      pure ⟨id, start_sec, end_sec, role, visual, camera, action, dialogue,
        on_screen_text, audio, notes_for_model⟩
    else none
  else none

/-- Pydantic re-hydration `VideoMeta.model_validate`. -/
def VideoMeta.model_validate (j : Json) : Option VideoMeta := do
  let duration_seconds ← j.get "duration_seconds" >>= asInt
  let platform ← j.get "platform" >>= asStr >>= Platform.ofString
  pure ⟨duration_seconds, platform⟩

/-- Pydantic re-hydration `VideoScript.model_validate`. -/
def VideoScript.model_validate (j : Json) : Option VideoScript := do
  let video_meta ← j.get "video_meta" >>= VideoMeta.model_validate
  let scenesJson ← match j.get "scenes" with
    | some (.arr l) => some l
    | _ => none
  let scenes ← scenesJson.mapM Scene.model_validate
  pure ⟨video_meta, scenes⟩

/-! ### Round-trip lemmas for the schema -/

lemma platform_ofString_value (p : Platform) : Platform.ofString p.value = some p := by
  cases p <;> rfl

lemma sceneRole_ofString_value (r : SceneRole) : SceneRole.ofString r.value = some r := by
  cases r <;> rfl

lemma audio_roundtrip (a : Audio) : Audio.model_validate a.model_dump = some a := by
  obtain ⟨music, sfx⟩ := a
  cases music <;> cases sfx <;> rfl

lemma videoMeta_roundtrip (m : VideoMeta) :
    VideoMeta.model_validate m.model_dump = some m := by
  obtain ⟨d, p⟩ := m
  cases p <;> rfl

lemma scene_roundtrip (s : Scene) (h1 : 0 ≤ s.start_sec) (h2 : 0 ≤ s.end_sec) :
    Scene.model_validate s.model_dump = some s := by
  obtain ⟨id, ss, es, role, vis, cam, act, dia, ost, audio, notes⟩ := s
  simp only at h1 h2
  have haud := audio_roundtrip audio
  have hrole := sceneRole_ofString_value role
  simp [Scene.model_dump, Scene.model_validate, Json.get, asInt, asRat, asStr,
    asOptStr, h1, h2, haud, hrole, optStr]
  cases ost <;> cases notes <;> simp [optStr]

lemma videoScript_roundtrip (v : VideoScript)
    (h : ∀ sc ∈ v.scenes, 0 ≤ sc.start_sec ∧ 0 ≤ sc.end_sec) :
    VideoScript.model_validate v.model_dump = some v := by
  obtain ⟨meta, scenes⟩ := v
  have hmap : (scenes.map Scene.model_dump).mapM Scene.model_validate =
      some scenes := by
    induction scenes with
    | nil => rfl
    | cons a t ih =>
        rw [List.map_cons, List.mapM_cons,
          scene_roundtrip a (h a (List.mem_cons_self _ _)).1
            (h a (List.mem_cons_self _ _)).2,
          ih (fun x hx => h x (List.mem_cons_of_mem _ hx))]
        rfl
  have hloop : List.mapM.loop Scene.model_validate
      (List.map Scene.model_dump scenes) [] = some scenes := hmap
  simp [VideoScript.model_dump, VideoScript.model_validate, Json.get,
    videoMeta_roundtrip, hloop]

/-! ## generation/generator.py: GenerationResult.to_dict -/

/-- Python `min(...)` over a generator of scores (first argument seeds the
fold); only applied to non-empty lists in the source. -/
def pyListMin : List ℚ → ℚ
  | [] => 0
  | x :: t => t.foldl min x

/-- Python `max(...)` over a generator of scores. -/
def pyListMax : List ℚ → ℚ
  | [] => 0
  | x :: t => t.foldl max x

/-- A `Concept` in nested-mapping form, as built inline by `to_dict`. -/
def conceptToDict (c : Concept) : Json :=
  .obj [("title", .str c.title), ("description", .str c.description),
        ("hook_idea", .str c.hook_idea)]

/-- `GenerationResult.to_dict` (generator.py, lines 55-91), for the
video-script content type.  The wall-clock `timestamp` and `iso_timestamp`
are parameters. -/
def GenerationResult.to_dict (r : GenerationResult VideoScript)
    (timestamp : ℚ) (iso_timestamp : String) : Json :=
  .obj [("timestamp", .rat timestamp),
        ("iso_timestamp", .str iso_timestamp),
        ("generation_uuid", .str r.generation_uuid),
        ("content_type", .str r.content_type.value),
        ("product_context", r.product_context),
        ("reference_examples",
          match r.reference_examples with
          | none => .null
          | some l => .arr (l.map Json.str)),
        ("selected_concept", conceptToDict r.selected_concept),
        ("concept_score", .rat r.concept_score),
        ("generated_content", r.content.model_dump),
        ("all_concepts", .arr (r.scored_concepts.map (fun sc =>
          .obj [("concept", conceptToDict sc.concept),
                ("score", .rat sc.score.quality_score),
                ("reason", .str sc.score.reason)]))),
        ("total_concepts_generated", .int r.concepts.length),
        ("total_concepts_scored", .int r.scored_concepts.length),
        ("score_distribution", .obj
          [("min", .rat (if r.scored_concepts.isEmpty then 0
            else pyListMin (r.scored_concepts.map ScoredConcept.quality_score))),
           ("max", .rat (if r.scored_concepts.isEmpty then 0
            else pyListMax (r.scored_concepts.map ScoredConcept.quality_score))),
           ("avg", .rat (if r.scored_concepts.isEmpty then 0
            else (r.scored_concepts.map ScoredConcept.quality_score).sum /
              r.scored_concepts.length))])]

/-- C8: serializing a `GenerationResult` with `to_dict()` puts the drafted
content's `model_dump()` under the `generated_content` key, and re-hydrating
that nested mapping against the `VideoScript` schema yields a value
field-for-field equal to the original drafted content (given the schema's
own `start_sec, end_sec ≥ 0` validation invariant, which every
pydantic-constructed scene satisfies). -/
theorem generation_result_roundtrip (r : GenerationResult VideoScript)
    (ts : ℚ) (iso : String)
    (h : ∀ sc ∈ r.content.scenes, 0 ≤ sc.start_sec ∧ 0 ≤ sc.end_sec) :
    (GenerationResult.to_dict r ts iso).get "generated_content" =
      some r.content.model_dump ∧
    VideoScript.model_validate r.content.model_dump = some r.content := by
  refine ⟨?_, videoScript_roundtrip r.content h⟩
  rfl

/-- A concrete one-scene video script. -/
def demoScene : Scene :=
  ⟨1, 0, 3, .hook, "POV shot", "Zoom in", "opens laptop", "so fast",
    none, ⟨none, none⟩, none⟩

/-- A concrete video script. -/
def demoScript : VideoScript := ⟨⟨15, .tiktok⟩, [demoScene]⟩

/-- A concrete generation result carrying `demoScript`. -/
def demoVSGenResult : GenerationResult VideoScript :=
  ⟨demoScript, ⟨"t", "d", "h"⟩, 9/10, ContentType.video_script, [], [],
    Json.null, none, "uuid-2"⟩

/-- Witness for `generation_result_roundtrip`: the demo result round-trips
through its nested-mapping form. -/
theorem generation_result_roundtrip_witness :
    (∀ sc ∈ demoVSGenResult.content.scenes, 0 ≤ sc.start_sec ∧ 0 ≤ sc.end_sec) ∧
    (GenerationResult.to_dict demoVSGenResult 0 "").get "generated_content" =
      some demoVSGenResult.content.model_dump ∧
    VideoScript.model_validate demoVSGenResult.content.model_dump =
      some demoVSGenResult.content := by
  have hs : ∀ sc ∈ demoVSGenResult.content.scenes,
      0 ≤ sc.start_sec ∧ 0 ≤ sc.end_sec := by
    intro sc hsc
    simp only [demoVSGenResult, demoScript, List.mem_singleton] at hsc
    subst hsc
    constructor <;> norm_num [demoScene]
  exact ⟨hs, generation_result_roundtrip demoVSGenResult 0 "" hs⟩

end AGMI
